import Mathlib

/-!
Verification of the client-side serialization engine (`SerializationServiceV1`)
and the `MultiMapIsLockedCodec` message codec.

The embedding follows the TypeScript sources. Values are modelled by the
inductive `JSValue`; JavaScript numbers are represented by their 64-bit
IEEE-754 bit pattern (`num bits`), which is exactly what the binary
double serializer copies to and from the wire. Byte buffers are `List Nat`
with each byte reduced mod 256. Fallible operations return `Except JsError`.

Parts of the repository that the sources reference but that are not present
(the default serializer implementations, the binary stream primitives
`ObjectDataOutput`/`ObjectDataInput`, `HeapData`, `BitsUtil`, `ClientMessage`
and `Util.getType`) are modelled from the specification; each such definition
carries a doc comment starting with "Modelled from the spec:".
-/

set_option linter.unusedVariables false

/-- A byte is a natural number reduced mod 256. -/
def byteOf (n : Nat) : Nat := n % 256

/-- Big-endian byte list of a natural number, in the given byte width. -/
def bytesOfNatBE : Nat → Nat → List Nat
  | 0, _ => []
  | w+1, v => byteOf (v / 256 ^ w) :: bytesOfNatBE w v

/-- Modelled from the spec: the stream primitives write signed integers in
two's complement, big-endian when the flag says so (Buffer writeIntBE /
writeIntLE). -/
def intBytes (width : Nat) (bigEndian : Bool) (v : Int) : List Nat :=
  let bs := bytesOfNatBE width (v % ((2 : Int) ^ (8 * width))).toNat
  if bigEndian then bs else bs.reverse

/-- The 4-byte two's-complement encoding of an integer. -/
def int32Bytes (bigEndian : Bool) (v : Int) : List Nat := intBytes 4 bigEndian v

/-- Signed 32-bit value of a big-endian byte list (Buffer readInt32BE). -/
def int32OfBytesBE (bs : List Nat) : Int :=
  let u := bs.foldl (fun a b => a * 256 + byteOf b) 0
  if u < 2 ^ 31 then (u : Nat) else (u : Int) - 2 ^ 32

/-- UTF-8 encoding of one character, as natural-number bytes. -/
def utf8EncodeCharNat (c : Char) : List Nat :=
  let n := c.toNat
  if n < 0x80 then [n]
  else if n < 0x800 then [0xC0 ||| (n >>> 6), 0x80 ||| (n &&& 0x3F)]
  else if n < 0x10000 then
    [0xE0 ||| (n >>> 12), 0x80 ||| ((n >>> 6) &&& 0x3F), 0x80 ||| (n &&& 0x3F)]
  else
    [0xF0 ||| (n >>> 18), 0x80 ||| ((n >>> 12) &&& 0x3F),
     0x80 ||| ((n >>> 6) &&& 0x3F), 0x80 ||| (n &&& 0x3F)]

/-- UTF-8 bytes of a string. -/
def utf8Bytes (s : String) : List Nat := s.data.flatMap utf8EncodeCharNat

/-- UTF-8 decoding, fuelled by the remaining byte count; returns none on a
malformed sequence. -/
def utf8DecodeAux : Nat → List Nat → List Char → Option (List Char)
  | _, [], acc => some acc.reverse
  | 0, _ :: _, _ => none
  | fuel+1, b :: rest, acc =>
    if b < 0x80 then utf8DecodeAux fuel rest (Char.ofNat b :: acc)
    else if b < 0xC0 then none
    else if b < 0xE0 then
      match rest with
      | b1 :: rest1 =>
        if 0x80 ≤ b1 ∧ b1 < 0xC0 then
          utf8DecodeAux fuel rest1 (Char.ofNat (((b &&& 0x1F) <<< 6) ||| (b1 &&& 0x3F)) :: acc)
        else none
      | _ => none
    else if b < 0xF0 then
      match rest with
      | b1 :: b2 :: rest2 =>
        if (0x80 ≤ b1 ∧ b1 < 0xC0) ∧ (0x80 ≤ b2 ∧ b2 < 0xC0) then
          utf8DecodeAux fuel rest2
            (Char.ofNat (((b &&& 0x0F) <<< 12) ||| ((b1 &&& 0x3F) <<< 6) ||| (b2 &&& 0x3F)) :: acc)
        else none
      | _ => none
    else
      match rest with
      | b1 :: b2 :: b3 :: rest3 =>
        if (0x80 ≤ b1 ∧ b1 < 0xC0) ∧ (0x80 ≤ b2 ∧ b2 < 0xC0) ∧ (0x80 ≤ b3 ∧ b3 < 0xC0) then
          utf8DecodeAux fuel rest3
            (Char.ofNat (((b &&& 0x07) <<< 18) ||| ((b1 &&& 0x3F) <<< 12) |||
              ((b2 &&& 0x3F) <<< 6) ||| (b3 &&& 0x3F)) :: acc)
        else none
      | _ => none

/-- Decode a UTF-8 byte list into a string, when well formed. -/
def decodeUTF8 (bs : List Nat) : Option String :=
  (utf8DecodeAux bs.length bs []).map fun cs => ⟨cs⟩

/-- Errors raised synchronously by the engine and the codecs. `rangeError`
and `typeError` are the JavaScript exception classes the code actually
throws; `unknownType` and `noSerializerFound` model the taxonomy names the
specification uses (section 7), so that statements can compare what the code
raises against what the specification promises. -/
inductive JsError where
  | rangeError (msg : String)
  | typeError (msg : String)
  | unknownType (typeTag : Int)
  | noSerializerFound (shape : String)
deriving DecidableEq, Repr

/-- The identified-custom-type capability set: `getFactoryId`, `getClassId`
and `writeData` (modelled by the bytes it appends); carried by values that
duck-type `IdentifiedDataSerializable`. -/
structure IdentInfo where
  factoryId : Int
  classId : Int
  payload : List Nat
deriving Repr

/-- The JavaScript values the serialization engine is exercised with.
Numbers carry their 64-bit IEEE-754 bit pattern. Arrays and plain objects
optionally carry the identified-custom-type capability set (structural
duck typing in the source); primitives cannot carry own properties. -/
inductive JSValue where
  | undef
  | null
  | bool (b : Bool)
  | num (bits : Nat)
  | str (s : String)
  | arr (elems : List JSValue) (caps : Option IdentInfo)
  | obj (caps : Option IdentInfo)

/-- Modelled from the spec: `Util.getType` (Util.ts is not in the sources)
classifies a value by runtime shape, returning "array" for arrays and the
shape name (string, number, boolean, null) for scalars (spec 4.4.1). -/
def getType : JSValue → String
  | .undef => "undefined"
  | .null => "null"
  | .bool _ => "boolean"
  | .num _ => "number"
  | .str _ => "string"
  | .arr _ _ => "array"
  | .obj _ => "object"

/-- A value exposes the identified-custom-type capability set. -/
def hasIdentCaps : JSValue → Bool
  | .arr _ caps => caps.isSome
  | .obj caps => caps.isSome
  | _ => false

/-- Modelled from the spec: `ObjectDataInput`, the reading stream primitive —
a buffer, a cursor, and the byte-order flag fixed at construction
(spec 4.1). -/
structure DataInput where
  buffer : List Nat
  pos : Nat
  bigEndian : Bool

/-- Read `n` raw bytes; reading past the buffer fails with OutOfRange
(spec 4.1). -/
def DataInput.readBytes (inp : DataInput) (n : Nat) :
    Except JsError (List Nat × DataInput) :=
  if inp.pos + n ≤ inp.buffer.length then
    .ok ((inp.buffer.drop inp.pos).take n, { inp with pos := inp.pos + n })
  else .error (.rangeError "Index out of range")

/-- Read a signed 32-bit integer in the stream's byte order. -/
def DataInput.readInt (inp : DataInput) : Except JsError (Int × DataInput) :=
  (inp.readBytes 4).map fun p =>
    (int32OfBytesBE (if inp.bigEndian then p.1 else p.1.reverse), p.2)

/-- Read a signed integer of the given byte width in the stream's byte
order. -/
def DataInput.readIntW (inp : DataInput) (width : Nat) :
    Except JsError (Int × DataInput) :=
  (inp.readBytes width).map fun p =>
    let bs := if inp.bigEndian then p.1 else p.1.reverse
    let u := bs.foldl (fun a b => a * 256 + byteOf b) 0
    (if u < 2 ^ (8 * width - 1) then (u : Int) else (u : Int) - 2 ^ (8 * width), p.2)

/-- A serializer: numeric type tag (`getId` in the source), a writer that
returns the payload bytes it appends to the stream, and a reader. The
writer takes the stream's big-endian flag. -/
structure Serializer where
  id : Int
  write : Bool → JSValue → Except JsError (List Nat)
  read : DataInput → Except JsError JSValue

/-- Sign bit of a 64-bit IEEE-754 pattern. -/
def f64Sign (bits : Nat) : Nat := bits / 2 ^ 63 % 2

/-- Exponent field of a 64-bit IEEE-754 pattern. -/
def f64Exp (bits : Nat) : Nat := bits / 2 ^ 52 % 2 ^ 11

/-- Mantissa field of a 64-bit IEEE-754 pattern. -/
def f64Mant (bits : Nat) : Nat := bits % 2 ^ 52

/-- Magnitude of a double truncated toward zero (NaN and infinity go to 0,
as in the ToInt32 abstract operation). -/
def f64TruncMag (bits : Nat) : Nat :=
  let e := f64Exp bits
  let m := f64Mant bits
  if e = 2047 then 0
  else if e = 0 then 0
  else
    let sig := 2 ^ 52 + m
    if 1075 ≤ e then sig * 2 ^ (e - 1075) else sig / 2 ^ (1075 - e)

/-- Integer value of a double truncated toward zero. -/
def f64TruncInt (bits : Nat) : Int :=
  if f64Sign bits = 1 then -(f64TruncMag bits : Int) else (f64TruncMag bits : Int)

/-- The 64-bit IEEE-754 pattern of an integer (truncating the significand for
magnitudes beyond 53 bits, which no claim exercises). -/
def f64BitsOfInt (v : Int) : Nat :=
  if v = 0 then 0
  else
    let s := if v < 0 then 1 else 0
    let m := v.natAbs
    let k := Nat.log2 m
    if k ≤ 52 then s * 2 ^ 63 + (k + 1023) * 2 ^ 52 + (m * 2 ^ (52 - k) - 2 ^ 52)
    else s * 2 ^ 63 + (k + 1023) * 2 ^ 52 + (m / 2 ^ (k - 52) - 2 ^ 52)

/-- The 32-bit IEEE-754 pattern of a 64-bit one, narrowing by truncation
(no claim depends on the rounding mode of this narrowing). -/
def f32BitsOfF64Bits (bits : Nat) : Nat :=
  let s := f64Sign bits
  let e := f64Exp bits
  let m := f64Mant bits
  if e = 2047 then s * 2 ^ 31 + 255 * 2 ^ 23 + (if m = 0 then 0 else 2 ^ 22)
  else if e = 0 then s * 2 ^ 31
  else
    let bigE : Int := (e : Int) - 1023
    if 127 < bigE then s * 2 ^ 31 + 255 * 2 ^ 23
    else if bigE < -126 then
      let shift : Int := bigE - 52 + 149
      let mag := if 0 ≤ shift then (2 ^ 52 + m) * 2 ^ shift.toNat
                 else (2 ^ 52 + m) / 2 ^ (-shift).toNat
      if 2 ^ 23 ≤ mag then s * 2 ^ 31 + 2 ^ 23 else s * 2 ^ 31 + mag
    else s * 2 ^ 31 + (bigE + 127).toNat * 2 ^ 23 + m / 2 ^ 29

/-- The 64-bit IEEE-754 pattern of a 32-bit one (exact widening). -/
def f64BitsOfF32Bits (b : Nat) : Nat :=
  let s := b / 2 ^ 31 % 2
  let e := b / 2 ^ 23 % 256
  let m := b % 2 ^ 23
  if e = 255 then s * 2 ^ 63 + 2047 * 2 ^ 52 + m * 2 ^ 29
  else if e = 0 then
    if m = 0 then s * 2 ^ 63
    else
      let k := Nat.log2 m
      s * 2 ^ 63 + (k + 874) * 2 ^ 52 + (m * 2 ^ (52 - k) - 2 ^ 52)
  else s * 2 ^ 63 + (e + 896) * 2 ^ 52 + m * 2 ^ 29

/-- Modelled from the spec: the string payload writer — a 4-byte length
prefix in the stream's byte order followed by the UTF-8 bytes (spec 4.1). -/
def writeStringPayload (big : Bool) : JSValue → Except JsError (List Nat)
  | .str s => .ok (int32Bytes big ((utf8Bytes s).length : Int) ++ utf8Bytes s)
  | _ => .error (.typeError "expected a string value")

/-- Modelled from the spec: the string payload reader; a negative length is
the null-string sentinel (spec 4.1). -/
def readStringPayload (inp : DataInput) : Except JsError (JSValue × DataInput) := do
  let (len, inp) ← inp.readInt
  if len < 0 then .ok (.null, inp)
  else do
    let (bs, inp) ← inp.readBytes len.toNat
    match decodeUTF8 bs with
    | some s => .ok (.str s, inp)
    | none => .error (.rangeError "malformed utf-8 payload")

/-- Modelled from the spec: the double payload writer — the 8 bytes of the
64-bit pattern in the stream's byte order. -/
def writeDoublePayload (big : Bool) : JSValue → Except JsError (List Nat)
  | .num bits =>
    let bs := bytesOfNatBE 8 bits
    .ok (if big then bs else bs.reverse)
  | _ => .error (.typeError "expected a number value")

/-- Modelled from the spec: the double payload reader. -/
def readDoublePayload (inp : DataInput) : Except JsError (JSValue × DataInput) := do
  let (bs, inp) ← inp.readBytes 8
  let o := if inp.bigEndian then bs else bs.reverse
  .ok (.num (o.foldl (fun a b => a * 256 + byteOf b) 0), inp)

/-- Modelled from the spec: the boolean payload writer — one byte. -/
def writeBooleanPayload (big : Bool) : JSValue → Except JsError (List Nat)
  | .bool b => .ok [if b then 1 else 0]
  | _ => .error (.typeError "expected a boolean value")

/-- Modelled from the spec: the boolean payload reader. -/
def readBooleanPayload (inp : DataInput) : Except JsError (JSValue × DataInput) := do
  let (bs, inp) ← inp.readBytes 1
  .ok (.bool (bs.getD 0 0 == 1), inp)

/-- Modelled from the spec: fixed-width signed integer payload writer; the
JavaScript number is truncated toward zero and wrapped to the width. -/
def writeIntWPayload (width : Nat) (big : Bool) : JSValue → Except JsError (List Nat)
  | .num bits => .ok (intBytes width big (f64TruncInt bits))
  | _ => .error (.typeError "expected a number value")

/-- Modelled from the spec: fixed-width signed integer payload reader,
returning the value as a JavaScript number. -/
def readIntWPayload (width : Nat) (inp : DataInput) :
    Except JsError (JSValue × DataInput) := do
  let (v, inp) ← inp.readIntW width
  .ok (.num (f64BitsOfInt v), inp)

/-- Modelled from the spec: single-precision float payload writer. -/
def writeFloatPayload (big : Bool) : JSValue → Except JsError (List Nat)
  | .num bits => .ok (intBytes 4 big (f32BitsOfF64Bits bits : Int))
  | _ => .error (.typeError "expected a number value")

/-- Modelled from the spec: single-precision float payload reader. -/
def readFloatPayload (inp : DataInput) : Except JsError (JSValue × DataInput) := do
  let (bs, inp) ← inp.readBytes 4
  let o := if inp.bigEndian then bs else bs.reverse
  .ok (.num (f64BitsOfF32Bits (o.foldl (fun a b => a * 256 + byteOf b) 0)), inp)

/-- Modelled from the spec: homogeneous array payload writer — a 4-byte
count followed by each element's encoding (spec section 6). -/
def writeArrayPayload (elemW : Bool → JSValue → Except JsError (List Nat))
    (big : Bool) : JSValue → Except JsError (List Nat)
  | .arr xs _ => do
    let parts ← xs.mapM (elemW big)
    .ok (int32Bytes big (xs.length : Int) ++ parts.flatten)
  | _ => .error (.typeError "expected an array value")

/-- Read `n` values with the given element reader. -/
def readNPayload (elemR : DataInput → Except JsError (JSValue × DataInput)) :
    Nat → DataInput → Except JsError (List JSValue × DataInput)
  | 0, inp => .ok ([], inp)
  | n+1, inp => do
    let (v, inp) ← elemR inp
    let (vs, inp) ← readNPayload elemR n inp
    .ok (v :: vs, inp)

/-- Modelled from the spec: homogeneous array payload reader. -/
def readArrayPayload (elemR : DataInput → Except JsError (JSValue × DataInput))
    (inp : DataInput) : Except JsError (JSValue × DataInput) := do
  let (count, inp) ← inp.readInt
  let (vs, inp) ← readNPayload elemR count.toNat inp
  .ok (.arr vs none, inp)

/-- Modelled from the spec: `StringSerializer` (DefaultSerializer.ts is not
in the sources). The string type tag -11 is visible in the source
(`JsonSerializationService.toData` writes -11 and comments "string
serializer"); the remaining tags follow the cluster protocol constant
table, and the development relies only on their distinctness and on -11. -/
def StringSerializer : Serializer :=
  ⟨-11, writeStringPayload, fun inp => (readStringPayload inp).map Prod.fst⟩

/-- Modelled from the spec: `DoubleSerializer`, registered under the name
"number" (the default numeric serializer). -/
def DoubleSerializer : Serializer :=
  ⟨-10, writeDoublePayload, fun inp => (readDoublePayload inp).map Prod.fst⟩

/-- Modelled from the spec: `BooleanSerializer`. -/
def BooleanSerializer : Serializer :=
  ⟨-4, writeBooleanPayload, fun inp => (readBooleanPayload inp).map Prod.fst⟩

/-- Modelled from the spec: `NullSerializer` — type tag 0, empty payload
(spec 4.3 requires a serializer for the null shape). -/
def NullSerializer : Serializer :=
  ⟨0, fun _ _ => .ok [], fun _ => .ok .null⟩

/-- Modelled from the spec: `ShortSerializer` (16-bit signed integer). -/
def ShortSerializer : Serializer :=
  ⟨-6, writeIntWPayload 2, fun inp => (readIntWPayload 2 inp).map Prod.fst⟩

/-- Modelled from the spec: `IntegerSerializer` (32-bit signed integer). -/
def IntegerSerializer : Serializer :=
  ⟨-7, writeIntWPayload 4, fun inp => (readIntWPayload 4 inp).map Prod.fst⟩

/-- Modelled from the spec: `LongSerializer` (64-bit signed integer). -/
def LongSerializer : Serializer :=
  ⟨-8, writeIntWPayload 8, fun inp => (readIntWPayload 8 inp).map Prod.fst⟩

/-- Modelled from the spec: `FloatSerializer` (32-bit float). -/
def FloatSerializer : Serializer :=
  ⟨-9, writeFloatPayload, fun inp => (readFloatPayload inp).map Prod.fst⟩

/-- Modelled from the spec: `BooleanArraySerializer`. -/
def BooleanArraySerializer : Serializer :=
  ⟨-13, writeArrayPayload writeBooleanPayload,
    fun inp => (readArrayPayload readBooleanPayload inp).map Prod.fst⟩

/-- Modelled from the spec: `ShortArraySerializer`. -/
def ShortArraySerializer : Serializer :=
  ⟨-15, writeArrayPayload (writeIntWPayload 2),
    fun inp => (readArrayPayload (readIntWPayload 2) inp).map Prod.fst⟩

/-- Modelled from the spec: `IntegerArraySerializer`. -/
def IntegerArraySerializer : Serializer :=
  ⟨-16, writeArrayPayload (writeIntWPayload 4),
    fun inp => (readArrayPayload (readIntWPayload 4) inp).map Prod.fst⟩

/-- Modelled from the spec: `LongArraySerializer`. -/
def LongArraySerializer : Serializer :=
  ⟨-17, writeArrayPayload (writeIntWPayload 8),
    fun inp => (readArrayPayload (readIntWPayload 8) inp).map Prod.fst⟩

/-- Modelled from the spec: `DoubleArraySerializer`, registered under the
name "numberArray" — the default numeric-array serializer. -/
def DoubleArraySerializer : Serializer :=
  ⟨-19, writeArrayPayload writeDoublePayload,
    fun inp => (readArrayPayload readDoublePayload inp).map Prod.fst⟩

/-- Modelled from the spec: `StringArraySerializer`. -/
def StringArraySerializer : Serializer :=
  ⟨-20, writeArrayPayload writeStringPayload,
    fun inp => (readArrayPayload readStringPayload inp).map Prod.fst⟩

/-- Modelled from the spec: `IdentifiedDataSerializableSerializer` — writes
the factory id, the class id, then lets the value write its own fields
(`writeData`). Reading resolves a factory from the externally supplied
factory table; the default `SerializationConfig` supplies an empty table, so
decoding dereferences an absent factory and raises a TypeError. -/
def IdentifiedDataSerializableSerializer : Serializer :=
  ⟨-2,
   fun big v =>
     match v with
     | .arr _ (some info) =>
       .ok (int32Bytes big info.factoryId ++ int32Bytes big info.classId ++ info.payload)
     | .obj (some info) =>
       .ok (int32Bytes big info.factoryId ++ int32Bytes big info.classId ++ info.payload)
     | _ => .error (.typeError "value is not identified data serializable"),
   fun inp => do
     let (_, inp) ← inp.readInt
     let (_, _) ← inp.readInt
     .error (.typeError "Cannot read property create of undefined")⟩

/-- The serialization service state: the two registry tables (JavaScript
objects in the source, modelled as association lists with at most one
binding per key) and the byte-order flag from `SerializationConfig`. -/
structure SerializationServiceV1 where
  registry : List (Int × Serializer)
  serializerNameToId : List (String × Int)
  isBigEndian : Bool

/-- JavaScript object-property assignment: replace the binding when the key
is present, append it otherwise. -/
def setEntry {κ α : Type} [BEq κ] (l : List (κ × α)) (k : κ) (v : α) : List (κ × α) :=
  if l.any (fun p => p.1 == k) then
    l.map (fun p => if p.1 == k then (k, v) else p)
  else l ++ [(k, v)]

/-- JavaScript truthiness of a number looked up in an object: absent
(undefined) and 0 are both falsy. -/
def truthyId : Option Int → Bool
  | some t => t != 0
  | none => false

namespace SerializationServiceV1

/-- Embedding of `SerializationServiceV1.registerSerializer`: the
duplicate-name guard tests the JavaScript truthiness of the stored id, the
duplicate-id guard tests the presence of the stored serializer object, and
only then are both bindings assigned. -/
def registerSerializer (svc : SerializationServiceV1) (name : String)
    (serializer : Serializer) : Except JsError SerializationServiceV1 :=
  if truthyId (svc.serializerNameToId.lookup name) then
    .error (.rangeError "Given serializer name is already in the registry.")
  else if (svc.registry.lookup serializer.id).isSome then
    .error (.rangeError "Given serializer id is already in the registry.")
  else
    .ok { svc with
          serializerNameToId := setEntry svc.serializerNameToId name serializer.id,
          registry := setEntry svc.registry serializer.id serializer }

/-- Embedding of `SerializationServiceV1.findSerializerById`: a plain
registry lookup (absent means undefined). -/
def findSerializerById (svc : SerializationServiceV1) (id : Int) : Option Serializer :=
  svc.registry.lookup id

/-- Embedding of `SerializationServiceV1.findSerializerByName`: appends
"Array" for the array variant, resolves the name table (a `== null` test in
the source, so an id of 0 passes), then the registry. -/
def findSerializerByName (svc : SerializationServiceV1) (name : String)
    (isArray : Bool) : Option Serializer :=
  let serializerName := name ++ (if isArray then "Array" else "")
  match svc.serializerNameToId.lookup serializerName with
  | none => none
  | some serializerId => svc.findSerializerById serializerId

/-- Embedding of `SerializationServiceV1.isIdentifiedDataSerializable`: the
source probes `obj.readData` (then `writeData`, `getClassId`,
`getFactoryId`) without a null guard, so a null (or undefined) receiver
raises a TypeError; on primitives the probe yields undefined, which is
falsy. -/
def isIdentifiedDataSerializable : JSValue → Except JsError Bool
  | .null => .error (.typeError "Cannot read property readData of null")
  | .undef => .error (.typeError "Cannot read property readData of undefined")
  | .arr _ caps => .ok caps.isSome
  | .obj caps => .ok caps.isSome
  | _ => .ok false

/-- Embedding of `SerializationServiceV1.findSerializerFor`: undefined is
rejected with a RangeError; the identified capability probe runs next (and
raises on null); arrays dispatch on emptiness and the first element's shape;
scalars dispatch on their own shape. A failed registry lookup is returned
as `none` (the source returns null). -/
def findSerializerFor (svc : SerializationServiceV1) (obj : JSValue) :
    Except JsError (Option Serializer) :=
  match obj with
  | .undef => .error (.rangeError "undefined cannot be serialized.")
  | obj =>
    match isIdentifiedDataSerializable obj with
    | .error e => .error e
    | .ok true => .ok (svc.findSerializerByName "identified" false)
    | .ok false =>
      match obj with
      | .arr [] _ => .ok (svc.findSerializerByName "number" true)
      | .arr (first :: _) _ => .ok (svc.findSerializerByName (getType first) true)
      | _ => .ok (svc.findSerializerByName (getType obj) false)

end SerializationServiceV1

/-- Modelled from the spec: `HeapData`, the Envelope — a flat byte buffer of
a 4-byte partition hash, a 4-byte type tag, and the payload (spec 4.2, 6). -/
structure HeapData where
  buffer : List Nat

/-- Modelled from the spec: `DATA_OFFSET` — the payload starts right after
the two 4-byte header fields. -/
def DATA_OFFSET : Nat := 8

/-- Modelled from the spec: the Envelope's type-tag accessor, reading the
4 bytes after the partition hash (big-endian, matching the header writer in
`toData`, which uses `writeIntBE`). -/
def HeapData.getType (d : HeapData) : Int :=
  int32OfBytesBE ((d.buffer.drop 4).take 4)

namespace SerializationServiceV1

/-- Embedding of the private `defaultPartitionStrategy`: it returns 0 for a
null value and for any value not exposing `getPartitionHash`; no value in
the modelled domain exposes that capability, so the strategy is constantly
0. -/
def defaultPartitionStrategy : JSValue → Int := fun _ => 0

/-- Embedding of `calculatePartitionHash`: apply the strategy. -/
def calculatePartitionHash (object : JSValue) (strategy : JSValue → Int) : Int :=
  strategy object

/-- Embedding of `SerializationServiceV1.toData`: resolve the serializer,
write the partition hash then the serializer's id — both with `writeIntBE`,
unconditionally big-endian — then the serializer's payload, and wrap the
bytes as `HeapData`. When the lookup produced null, the source dereferences
it (`serializer.getId()`), a TypeError. -/
def toData (svc : SerializationServiceV1) (partitioningStrategy : JSValue → Int)
    (object : JSValue) : Except JsError HeapData :=
  match svc.findSerializerFor object with
  | .error e => .error e
  | .ok none => .error (.typeError "Cannot read property getId of null")
  | .ok (some serializer) =>
    match serializer.write svc.isBigEndian object with
    | .error e => .error e
    | .ok payload =>
      .ok ⟨int32Bytes true (calculatePartitionHash object partitioningStrategy)
           ++ int32Bytes true serializer.id ++ payload⟩

/-- Embedding of `SerializationServiceV1.toObject`: resolve the serializer
by the envelope's type tag, then read the payload on a stream positioned at
`DATA_OFFSET`. When no serializer is bound to the tag the source
dereferences undefined (`serializer.read(...)`), a TypeError. -/
def toObject (svc : SerializationServiceV1) (data : HeapData) :
    Except JsError JSValue :=
  match svc.findSerializerById data.getType with
  | none => .error (.typeError "Cannot read property read of undefined")
  | some serializer => serializer.read ⟨data.buffer, DATA_OFFSET, svc.isBigEndian⟩

/-- Embedding of `SerializationServiceV1.writeObject`: the serializer's tag
in the stream's byte order, then the payload; the result is the byte
sequence appended to the output stream. -/
def writeObject (svc : SerializationServiceV1) (big : Bool) (object : JSValue) :
    Except JsError (List Nat) :=
  match svc.findSerializerFor object with
  | .error e => .error e
  | .ok none => .error (.typeError "Cannot read property getId of null")
  | .ok (some serializer) =>
    match serializer.write big object with
    | .error e => .error e
    | .ok payload => .ok (intBytes 4 big serializer.id ++ payload)

/-- Embedding of `SerializationServiceV1.readObject`: read a tag, resolve,
then read the payload. -/
def readObject (svc : SerializationServiceV1) (inp : DataInput) :
    Except JsError JSValue := do
  let (serializerId, inp) ← inp.readInt
  match svc.findSerializerById serializerId with
  | none => .error (.typeError "Cannot read property read of undefined")
  | some serializer => serializer.read inp

/-- Embedding of `registerDefaultSerializers`, in source order. -/
def registerDefaultSerializers (svc : SerializationServiceV1) :
    Except JsError SerializationServiceV1 := do
  let svc ← svc.registerSerializer "string" StringSerializer
  let svc ← svc.registerSerializer "number" DoubleSerializer
  let svc ← svc.registerSerializer "boolean" BooleanSerializer
  let svc ← svc.registerSerializer "null" NullSerializer
  let svc ← svc.registerSerializer "short" ShortSerializer
  let svc ← svc.registerSerializer "integer" IntegerSerializer
  let svc ← svc.registerSerializer "long" LongSerializer
  let svc ← svc.registerSerializer "float" FloatSerializer
  let svc ← svc.registerSerializer "booleanArray" BooleanArraySerializer
  let svc ← svc.registerSerializer "shortArray" ShortArraySerializer
  let svc ← svc.registerSerializer "integerArray" IntegerArraySerializer
  let svc ← svc.registerSerializer "longArray" LongArraySerializer
  let svc ← svc.registerSerializer "numberArray" DoubleArraySerializer
  let svc ← svc.registerSerializer "stringArray" StringArraySerializer
  let svc ← svc.registerSerializer "identified" IdentifiedDataSerializableSerializer
  .ok svc

end SerializationServiceV1

/-- A service with empty registries and the given byte-order flag. -/
def emptyService (big : Bool) : SerializationServiceV1 := ⟨[], [], big⟩

/-- The service produced by the constructor: the fifteen default
serializers in registration order (`registerDefaultSerializers_ok` below
proves that the constructor's registration run yields exactly this state). -/
def defaultService (big : Bool) : SerializationServiceV1 :=
  ⟨[(-11, StringSerializer), (-10, DoubleSerializer), (-4, BooleanSerializer),
    (0, NullSerializer), (-6, ShortSerializer), (-7, IntegerSerializer),
    (-8, LongSerializer), (-9, FloatSerializer), (-13, BooleanArraySerializer),
    (-15, ShortArraySerializer), (-16, IntegerArraySerializer),
    (-17, LongArraySerializer), (-19, DoubleArraySerializer),
    (-20, StringArraySerializer), (-2, IdentifiedDataSerializableSerializer)],
   [("string", -11), ("number", -10), ("boolean", -4), ("null", 0),
    ("short", -6), ("integer", -7), ("long", -8), ("float", -9),
    ("booleanArray", -13), ("shortArray", -15), ("integerArray", -16),
    ("longArray", -17), ("numberArray", -19), ("stringArray", -20),
    ("identified", -2)],
   big⟩

/-- Modelled from the spec: `BitsUtil.HEADER_SIZE` — the fixed width of the
protocol message header (frame length, version, flags, message type,
correlation id, partition id, data offset; spec section 6 fixes the field
set, the remote protocol version the exact widths). It is positive, since
the header holds at least the 4-byte frame length. -/
def HEADER_SIZE : Nat := 22

/-- Modelled from the spec: `ClientMessage` — a fixed-size buffer holding
the header then the body, a write cursor, and a read cursor (positioned at
the body for a decoded response). Protocol-message integers are
little-endian. -/
structure ClientMessage where
  buffer : List Nat
  writeIndex : Nat
  readIndex : Nat

/-- Overwrite bytes of a buffer at an offset, keeping its length when the
write fits. -/
def setBytesAt (buf : List Nat) (off : Nat) (bs : List Nat) : List Nat :=
  buf.take off ++ bs ++ buf.drop (off + bs.length)

namespace ClientMessage

/-- Modelled from the spec: `ClientMessage.newClientMessage` allocates the
header plus the given payload size and positions both cursors at the body. -/
def newClientMessage (payloadSize : Nat) : ClientMessage :=
  ⟨List.replicate (HEADER_SIZE + payloadSize) 0, HEADER_SIZE, HEADER_SIZE⟩

/-- Modelled from the spec: write the 2-byte message type field into the
header. -/
def setMessageType (m : ClientMessage) (t : Int) : ClientMessage :=
  { m with buffer := setBytesAt m.buffer 6 (intBytes 2 false t) }

/-- Modelled from the spec: record the retryability flag in the header's
flags byte. -/
def setRetryable (m : ClientMessage) (retryable : Bool) : ClientMessage :=
  { m with buffer := setBytesAt m.buffer 5 [if retryable then 1 else 0] }

/-- Append bytes at the write cursor; writing past the allocated buffer
fails (Buffer bounds check). -/
def writeBytes (m : ClientMessage) (bs : List Nat) : Except JsError ClientMessage :=
  if m.writeIndex + bs.length ≤ m.buffer.length then
    .ok { m with buffer := setBytesAt m.buffer m.writeIndex bs,
                 writeIndex := m.writeIndex + bs.length }
  else .error (.rangeError "Index out of range")

/-- Modelled from the spec: `ClientMessage.appendString` — a 4-byte length
prefix then the UTF-8 bytes. -/
def appendString (m : ClientMessage) (s : String) : Except JsError ClientMessage :=
  m.writeBytes (intBytes 4 false ((utf8Bytes s).length : Int) ++ utf8Bytes s)

/-- Modelled from the spec: `ClientMessage.appendData` — a 4-byte length
prefix then the envelope's bytes. -/
def appendData (m : ClientMessage) (d : HeapData) : Except JsError ClientMessage :=
  m.writeBytes (intBytes 4 false (d.buffer.length : Int) ++ d.buffer)

/-- Modelled from the spec: `ClientMessage.updateFrameLength` — patch the
frame-length header field to the buffer's length. -/
def updateFrameLength (m : ClientMessage) : ClientMessage :=
  { m with buffer := setBytesAt m.buffer 0 (intBytes 4 false (m.buffer.length : Int)) }

/-- Modelled from the spec: `ClientMessage.readBoolean` — one byte at the
read cursor, compared against 1; reading past the buffer fails. -/
def readBoolean (m : ClientMessage) : Except JsError (Bool × ClientMessage) :=
  match m.buffer[m.readIndex]? with
  | some b => .ok (b == 1, { m with readIndex := m.readIndex + 1 })
  | none => .error (.rangeError "Index out of range")

end ClientMessage

namespace BitsUtil

/-- Modelled from the spec: `BitsUtil.calculateSizeString` — a 4-byte length
prefix plus the content length (spec 4.5). -/
def calculateSizeString (s : String) : Nat := 4 + (utf8Bytes s).length

/-- Modelled from the spec: `BitsUtil.calculateSizeData` — a 4-byte length
prefix plus the envelope's byte length (spec 4.5). -/
def calculateSizeData (d : HeapData) : Nat := 4 + d.buffer.length

end BitsUtil

/-- Modelled from the spec: `MultiMapMessageType.MULTIMAP_ISLOCKED`, the
constant request-type tag of this operation (its numeric value is not
visible in the sources; no claim depends on it). -/
def MULTIMAP_ISLOCKED : Int := 0x0211

namespace MultiMapIsLockedCodec

/-- Constant `REQUEST_TYPE` of the codec module. -/
def REQUEST_TYPE : Int := MULTIMAP_ISLOCKED

/-- Constant `RESPONSE_TYPE` of the codec module (visible in the source: 101). -/
def RESPONSE_TYPE : Int := 101

/-- Constant `RETRYABLE` of the codec module (visible in the source: true). -/
def RETRYABLE : Bool := true

/-- Embedding of `MultiMapIsLockedCodec.calculateSize`: the sum of the two
argument contributions — and nothing else. -/
def calculateSize (name : String) (key : HeapData) : Nat :=
  BitsUtil.calculateSizeString name + BitsUtil.calculateSizeData key

/-- Embedding of `MultiMapIsLockedCodec.encodeRequest`: allocate a message
for the calculated payload size, write the header fields, append the name
and the key, then patch the frame length. -/
def encodeRequest (name : String) (key : HeapData) : Except JsError ClientMessage := do
  let clientMessage := ClientMessage.newClientMessage (calculateSize name key)
  let clientMessage := clientMessage.setMessageType REQUEST_TYPE
  let clientMessage := clientMessage.setRetryable RETRYABLE
  let clientMessage ← clientMessage.appendString name
  let clientMessage ← clientMessage.appendData key
  .ok clientMessage.updateFrameLength

/-- The decoded response record: `parameters = \x7b'response': ...\x7d`. -/
structure IsLockedResponse where
  response : Bool
deriving DecidableEq, Repr

/-- Embedding of `MultiMapIsLockedCodec.decodeResponse`: read one boolean
from the message body into the response field; the optional converter
argument (default null in the source) is never used. -/
def decodeResponse (clientMessage : ClientMessage)
    (toObjectFunction : Option (HeapData → JSValue)) :
    Except JsError IsLockedResponse :=
  (clientMessage.readBoolean).map fun p => ⟨p.1⟩

end MultiMapIsLockedCodec

/-- A registry test double: the registry stores any object with an id and
the two stream callbacks, mirroring the structural `Serializer` interface
of the source. -/
def testSerializer (id : Int) : Serializer :=
  ⟨id, fun _ _ => .ok [], fun _ => .ok .null⟩

/-! ### Helper lemmas -/

theorem bytesOfNatBE_length (w v : Nat) : (bytesOfNatBE w v).length = w := by
  induction w generalizing v with
  | zero => rfl
  | succ w ih => simp [bytesOfNatBE, ih]

theorem intBytes_length (w : Nat) (big : Bool) (v : Int) :
    (intBytes w big v).length = w := by
  unfold intBytes
  cases big <;> simp [bytesOfNatBE_length]

theorem setBytesAt_length (buf : List Nat) (off : Nat) (bs : List Nat)
    (h : off + bs.length ≤ buf.length) :
    (setBytesAt buf off bs).length = buf.length := by
  simp [setBytesAt]
  omega

theorem writeBytes_ok (m : ClientMessage) (bs : List Nat)
    (h : m.writeIndex + bs.length ≤ m.buffer.length) :
    m.writeBytes bs =
      .ok ⟨setBytesAt m.buffer m.writeIndex bs, m.writeIndex + bs.length, m.readIndex⟩ := by
  simp [ClientMessage.writeBytes, h]

/-- The constructor's registration of the fifteen default serializers
succeeds and yields the default service. -/
theorem registerDefaultSerializers_ok (big : Bool) :
    SerializationServiceV1.registerDefaultSerializers (emptyService big) =
      .ok (defaultService big) := by
  cases big <;> rfl


theorem except_map_ok {ε α β : Type} (f : α → β) (a : α) :
    (Except.ok a : Except ε α).map f = .ok (f a) := rfl

/-- The envelope layout produced by `toData`: a big-endian partition hash,
a big-endian serializer tag, then the payload the serializer wrote. -/
theorem toData_layout (svc : SerializationServiceV1) (strat : JSValue → Int)
    (v : JSValue) (s : Serializer) (payload : List Nat)
    (hs : svc.findSerializerFor v = .ok (some s))
    (hw : s.write svc.isBigEndian v = .ok payload) :
    svc.toData strat v =
      .ok ⟨int32Bytes true (strat v) ++ (int32Bytes true s.id ++ payload)⟩ := by
  unfold SerializationServiceV1.toData
  simp only [hs, hw]
  rfl

/-- The envelope's type-tag accessor recovers the second header field. -/
theorem getType_header (h t : Int) (payload : List Nat) :
    HeapData.getType ⟨int32Bytes true h ++ (int32Bytes true t ++ payload)⟩ =
      int32OfBytesBE (int32Bytes true t) := by
  obtain ⟨a, b, c, d, hH⟩ : ∃ a b c d, int32Bytes true h = [a, b, c, d] :=
    ⟨_, _, _, _, rfl⟩
  obtain ⟨e, f, g, i, hT⟩ : ∃ e f g i, int32Bytes true t = [e, f, g, i] :=
    ⟨_, _, _, _, rfl⟩
  simp only [HeapData.getType, hH, hT]
  rfl

/-- The tag stamped into a `toData` envelope is the chosen serializer's. -/
theorem toData_getType (svc : SerializationServiceV1) (strat : JSValue → Int)
    (v : JSValue) (s : Serializer) (payload : List Nat)
    (hs : svc.findSerializerFor v = .ok (some s))
    (hw : s.write svc.isBigEndian v = .ok payload) :
    (svc.toData strat v).map HeapData.getType =
      .ok (int32OfBytesBE (int32Bytes true s.id)) := by
  rw [toData_layout svc strat v s payload hs hw, except_map_ok, getType_header]

/-! ### Claims -/

/-- C1: the claim says toData(null) succeeds (Unserializable is reserved for
undefined) and round-trips; the code instead probes `obj.readData` on the
null receiver inside `isIdentifiedDataSerializable` — there is no null guard
before the probe — raising a TypeError. This contradicts the specification
(null is a valid serializable value) and the repository's own
default-serializers test, which round-trips null. The theorem evaluates the
embedded code at the failing input. -/
theorem toData_null_raises :
    SerializationServiceV1.toData (defaultService true)
      SerializationServiceV1.defaultPartitionStrategy .null =
      .error (.typeError "Cannot read property readData of null") := rfl

/-- C2: the round-trip property fails at the supported value null — toData
raises before any serializer is chosen, so toObject(toData(null)) raises
rather than returning null; the repository's own test
(DefaultSerializersTest, parameter null) expects this round trip to hold. -/
theorem roundTrip_null_raises :
    (SerializationServiceV1.toData (defaultService true)
        SerializationServiceV1.defaultPartitionStrategy .null).bind
      (SerializationServiceV1.toObject (defaultService true)) =
      .error (.typeError "Cannot read property readData of null") := rfl

/-- C3: array dispatch in findSerializerFor — a plain (non-identified)
empty array resolves to the default numeric-array serializer
(DoubleArraySerializer, tag -19, registered under "numberArray"), and
toData stamps that tag into the envelope; a plain non-empty array resolves
to the array-variant serializer registered for its first element's shape
(the "Array"-suffixed lookup of getType of the first element), so the
resolution depends only on that first element — replacing the tail by any
other element list leaves the chosen serializer unchanged (no per-element
re-classification) — and concretely an array headed by any boolean
resolves to BooleanArraySerializer (tag -13) whatever its tail holds. -/
theorem arrayDispatch (big : Bool) (strat : JSValue → Int)
    (x : JSValue) (xs ys : List JSValue) (b : Bool) :
    (((defaultService big).findSerializerFor (.arr [] none)).map
        (Option.map Serializer.id) = .ok (some (-19))) ∧
    ((SerializationServiceV1.toData (defaultService big) strat (.arr [] none)).map
        HeapData.getType = .ok (-19)) ∧
    ((defaultService big).findSerializerFor (.arr (x :: xs) none) =
      .ok ((defaultService big).findSerializerByName (getType x) true)) ∧
    ((defaultService big).findSerializerFor (.arr (x :: xs) none) =
      (defaultService big).findSerializerFor (.arr (x :: ys) none)) ∧
    (((defaultService big).findSerializerFor (.arr (.bool b :: xs) none)).map
        (Option.map Serializer.id) = .ok (some (-13))) := by
  refine ⟨rfl, ?_, rfl, rfl, rfl⟩
  rw [toData_getType (defaultService big) strat (.arr [] none)
    DoubleArraySerializer _ rfl rfl]
  rfl

/-- C4: serializer resolution precedence — every value exposing the
identified-custom-type capability set resolves to the identified-type
serializer (tag -2), toData stamps that tag into the envelope, and
writeObject writes that tag first, even when the value is structurally an
array. -/
theorem identifiedPrecedence (big : Bool) (strat : JSValue → Int) (v : JSValue)
    (h : hasIdentCaps v = true) :
    (((defaultService big).findSerializerFor v).map (Option.map Serializer.id) =
      .ok (some (-2))) ∧
    ((SerializationServiceV1.toData (defaultService big) strat v).map
        HeapData.getType = .ok (-2)) ∧
    ((SerializationServiceV1.writeObject (defaultService big) big v).map
        (List.take 4) = .ok (intBytes 4 big (-2))) := by
  cases v with
  | arr xs caps =>
    cases caps with
    | none => simp [hasIdentCaps] at h
    | some info =>
      refine ⟨rfl, ?_, ?_⟩
      · rw [toData_getType (defaultService big) strat (.arr xs (some info))
          IdentifiedDataSerializableSerializer _ rfl rfl]
        rfl
      · cases big <;> rfl
  | obj caps =>
    cases caps with
    | none => simp [hasIdentCaps] at h
    | some info =>
      refine ⟨rfl, ?_, ?_⟩
      · rw [toData_getType (defaultService big) strat (.obj (some info))
          IdentifiedDataSerializableSerializer _ rfl rfl]
        rfl
      · cases big <;> rfl
  | undef => simp [hasIdentCaps] at h
  | null => simp [hasIdentCaps] at h
  | bool b => simp [hasIdentCaps] at h
  | num bits => simp [hasIdentCaps] at h
  | str s => simp [hasIdentCaps] at h

/-- Witness for C4 at a concrete identified value that is structurally an
array. -/
theorem identifiedPrecedence_witness :
    (((defaultService true).findSerializerFor
        (.arr [.num 5] (some ⟨1, 2, [7]⟩))).map (Option.map Serializer.id) =
      .ok (some (-2))) ∧
    ((SerializationServiceV1.toData (defaultService true) (fun _ => 0)
        (.arr [.num 5] (some ⟨1, 2, [7]⟩))).map HeapData.getType = .ok (-2)) ∧
    ((SerializationServiceV1.writeObject (defaultService true) true
        (.arr [.num 5] (some ⟨1, 2, [7]⟩))).map (List.take 4) =
      .ok (intBytes 4 true (-2))) :=
  identifiedPrecedence true (fun _ => 0) (.arr [.num 5] (some ⟨1, 2, [7]⟩)) rfl

/-- C5, counterexample: the claim says registering a serializer whose name
already maps to a tag always fails; but the duplicate-name guard tests
JavaScript truthiness of the stored tag, and the default registry maps
"null" to tag 0, which is falsy — so re-registering under the name "null"
succeeds (and rebinds the name). -/
theorem registerDuplicateName_zeroTag_succeeds :
    ((defaultService true).serializerNameToId.lookup "null" = some 0) ∧
    ((SerializationServiceV1.registerSerializer (defaultService true) "null"
        (testSerializer 55)).isOk = true) ∧
    ((SerializationServiceV1.registerSerializer (defaultService true) "null"
        (testSerializer 55)).map
      (fun svc => svc.serializerNameToId.lookup "null") = .ok (some 55)) :=
  ⟨rfl, rfl, rfl⟩

/-- C5, amended: registration fails with DuplicateName only when the name
is bound to a nonzero (truthy) tag; when the name is unbound or bound to
tag 0, a bound tag fails with DuplicateTag, and otherwise the registration
succeeds and inserts both mappings. Failure paths raise before either
table is assigned, so a failed registration leaves the registry unchanged. -/
theorem registerSerializer_behavior :
    (∀ (svc : SerializationServiceV1) (name : String) (s : Serializer) (t : Int),
      svc.serializerNameToId.lookup name = some t → t ≠ 0 →
      svc.registerSerializer name s =
        .error (.rangeError "Given serializer name is already in the registry.")) ∧
    (∀ (svc : SerializationServiceV1) (name : String) (s : Serializer),
      truthyId (svc.serializerNameToId.lookup name) = false →
      (svc.registry.lookup s.id).isSome = true →
      svc.registerSerializer name s =
        .error (.rangeError "Given serializer id is already in the registry.")) ∧
    (∀ (svc : SerializationServiceV1) (name : String) (s : Serializer),
      truthyId (svc.serializerNameToId.lookup name) = false →
      svc.registry.lookup s.id = none →
      svc.registerSerializer name s =
        .ok { svc with
              serializerNameToId := setEntry svc.serializerNameToId name s.id,
              registry := setEntry svc.registry s.id s }) := by
  refine ⟨?_, ?_, ?_⟩
  · intro svc name s t ht hnz
    simp [SerializationServiceV1.registerSerializer, truthyId, ht, hnz]
  · intro svc name s h1 h2
    simp [SerializationServiceV1.registerSerializer, h1, h2]
  · intro svc name s h1 h2
    simp [SerializationServiceV1.registerSerializer, h1, h2]

/-- Witness for C5: a fresh registration into the empty registry inserts
both mappings. -/
theorem registerSerializer_behavior_witness :
    SerializationServiceV1.registerSerializer (emptyService true) "custom"
      (testSerializer 55) =
      .ok { emptyService true with
            serializerNameToId :=
              setEntry (emptyService true).serializerNameToId "custom" 55,
            registry := setEntry (emptyService true).registry 55 (testSerializer 55) } :=
  registerSerializer_behavior.2.2 (emptyService true) "custom" (testSerializer 55) rfl rfl

theorem except_ok_bind {ε α β : Type} (a : α) (f : α → Except ε β) :
    (Except.ok a : Except ε α) >>= f = f a := rfl

/-- C6, counterexample: at name "" and an empty key envelope, the visible
`calculateSize` sums only the two argument contributions (8 bytes) while
`encodeRequest` allocates the header plus that payload (30 bytes), so the
claimed equality between buffer length and calculateSize fails. -/
theorem sizeEncodeAgreement_counterexample :
    ((MultiMapIsLockedCodec.encodeRequest "" ⟨[]⟩).map
        (fun m => m.buffer.length) = .ok 30) ∧
    MultiMapIsLockedCodec.calculateSize "" ⟨[]⟩ = 8 ∧ (30 : Nat) ≠ 8 :=
  ⟨rfl, rfl, by decide⟩

/-- C6, amended: for every name and key the encoded request's buffer length
is the fixed header size plus calculateSize(name, key), where calculateSize
sums only the argument contributions (a 4-byte length prefix plus content
for each of the two fields) and not the header. -/
theorem encodeRequest_length (name : String) (key : HeapData) :
    (MultiMapIsLockedCodec.encodeRequest name key).map (fun m => m.buffer.length) =
      .ok (HEADER_SIZE + MultiMapIsLockedCodec.calculateSize name key) := by
  have hb1 : (intBytes 4 false ((utf8Bytes name).length : Int) ++ utf8Bytes name).length
      = 4 + (utf8Bytes name).length := by
    rw [List.length_append, intBytes_length]
  have hb2 : (intBytes 4 false (key.buffer.length : Int) ++ key.buffer).length
      = 4 + key.buffer.length := by
    rw [List.length_append, intBytes_length]
  obtain ⟨B, hm2, hBlen⟩ : ∃ B,
      (((ClientMessage.newClientMessage
          (MultiMapIsLockedCodec.calculateSize name key)).setMessageType
          MultiMapIsLockedCodec.REQUEST_TYPE).setRetryable
          MultiMapIsLockedCodec.RETRYABLE = ⟨B, HEADER_SIZE, HEADER_SIZE⟩) ∧
      B.length = HEADER_SIZE + MultiMapIsLockedCodec.calculateSize name key := by
    refine ⟨_, rfl, ?_⟩
    simp only [ClientMessage.newClientMessage, ClientMessage.setMessageType,
      ClientMessage.setRetryable]
    rw [setBytesAt_length, setBytesAt_length, List.length_replicate]
    · rw [List.length_replicate, intBytes_length]
      simp only [HEADER_SIZE]
      omega
    · rw [setBytesAt_length, List.length_replicate]
      · simp only [List.length_cons, List.length_nil, HEADER_SIZE]
        omega
      · rw [List.length_replicate, intBytes_length]
        simp only [HEADER_SIZE]
        omega
  have h1 : (⟨B, HEADER_SIZE, HEADER_SIZE⟩ : ClientMessage).appendString name =
      .ok ⟨setBytesAt B HEADER_SIZE
            (intBytes 4 false ((utf8Bytes name).length : Int) ++ utf8Bytes name),
          HEADER_SIZE +
            (intBytes 4 false ((utf8Bytes name).length : Int) ++ utf8Bytes name).length,
          HEADER_SIZE⟩ :=
    writeBytes_ok _ _ (by
      rw [hb1, hBlen]
      simp only [MultiMapIsLockedCodec.calculateSize, BitsUtil.calculateSizeString,
        BitsUtil.calculateSizeData, HEADER_SIZE]
      omega)
  have hA1len : (setBytesAt B HEADER_SIZE
      (intBytes 4 false ((utf8Bytes name).length : Int) ++ utf8Bytes name)).length
      = HEADER_SIZE + MultiMapIsLockedCodec.calculateSize name key := by
    rw [setBytesAt_length, hBlen]
    rw [hb1, hBlen]
    simp only [MultiMapIsLockedCodec.calculateSize, BitsUtil.calculateSizeString,
      BitsUtil.calculateSizeData, HEADER_SIZE]
    omega
  have h2 : (⟨setBytesAt B HEADER_SIZE
        (intBytes 4 false ((utf8Bytes name).length : Int) ++ utf8Bytes name),
      HEADER_SIZE +
        (intBytes 4 false ((utf8Bytes name).length : Int) ++ utf8Bytes name).length,
      HEADER_SIZE⟩ : ClientMessage).appendData key =
      .ok ⟨setBytesAt
            (setBytesAt B HEADER_SIZE
              (intBytes 4 false ((utf8Bytes name).length : Int) ++ utf8Bytes name))
            (HEADER_SIZE +
              (intBytes 4 false ((utf8Bytes name).length : Int) ++ utf8Bytes name).length)
            (intBytes 4 false (key.buffer.length : Int) ++ key.buffer),
          (HEADER_SIZE +
            (intBytes 4 false ((utf8Bytes name).length : Int) ++ utf8Bytes name).length) +
            (intBytes 4 false (key.buffer.length : Int) ++ key.buffer).length,
          HEADER_SIZE⟩ :=
    writeBytes_ok _ _ (by
      rw [hb1, hb2, hA1len]
      simp only [MultiMapIsLockedCodec.calculateSize, BitsUtil.calculateSizeString,
        BitsUtil.calculateSizeData, HEADER_SIZE]
      omega)
  have hA2len : (setBytesAt
      (setBytesAt B HEADER_SIZE
        (intBytes 4 false ((utf8Bytes name).length : Int) ++ utf8Bytes name))
      (HEADER_SIZE +
        (intBytes 4 false ((utf8Bytes name).length : Int) ++ utf8Bytes name).length)
      (intBytes 4 false (key.buffer.length : Int) ++ key.buffer)).length
      = HEADER_SIZE + MultiMapIsLockedCodec.calculateSize name key := by
    rw [setBytesAt_length, hA1len]
    rw [hb1, hb2, hA1len]
    simp only [MultiMapIsLockedCodec.calculateSize, BitsUtil.calculateSizeString,
      BitsUtil.calculateSizeData, HEADER_SIZE]
    omega
  simp only [MultiMapIsLockedCodec.encodeRequest]
  rw [hm2, h1, except_ok_bind, h2, except_ok_bind, except_map_ok]
  simp only [ClientMessage.updateFrameLength]
  rw [setBytesAt_length, hA2len]
  rw [intBytes_length, hA2len]
  simp only [HEADER_SIZE]
  omega

/-- C7, counterexample: a plain object's shape ("object") has no registered
serializer; the claim says toData then fails with a NoSerializerFound error
naming the shape, but the code dereferences the null lookup result
(`serializer.getId()`) and raises a generic TypeError that names nothing. -/
theorem noSerializerFound_counterexample :
    (SerializationServiceV1.toData (defaultService true)
        SerializationServiceV1.defaultPartitionStrategy (.obj none) =
      .error (.typeError "Cannot read property getId of null")) ∧
    JsError.typeError "Cannot read property getId of null" ≠
      JsError.noSerializerFound "object" :=
  ⟨rfl, by decide⟩

/-- C7, amended: whenever the precedence policy resolves to an absent
serializer (findSerializerByName returned null), toData does fail — but
with the TypeError produced by dereferencing the absent serializer, not
with an error naming the offending shape. -/
theorem unresolvedShape_raises_typeError (svc : SerializationServiceV1)
    (strat : JSValue → Int) (v : JSValue)
    (h : svc.findSerializerFor v = .ok none) :
    svc.toData strat v = .error (.typeError "Cannot read property getId of null") := by
  unfold SerializationServiceV1.toData
  simp only [h]

/-- Witness for C7 at a non-empty array whose first element's shape has no
array serializer (nullArray is not registered). -/
theorem unresolvedShape_raises_typeError_witness :
    SerializationServiceV1.toData (defaultService true) (fun _ => 0)
      (.arr [.null] none) =
      .error (.typeError "Cannot read property getId of null") :=
  unresolvedShape_raises_typeError (defaultService true) (fun _ => 0)
    (.arr [.null] none) rfl

/-- C8, counterexample: with a little-endian configuration the envelope's
type-tag field is still written big-endian (`toData` uses `writeIntBE` for
both header fields), so the claim that all integers — the two header fields
included — honor the configured byte order fails: the tag bytes of
toData("a") are the big-endian image of -11, not the little-endian one. -/
theorem envelopeByteOrder_counterexample :
    ((SerializationServiceV1.toData (defaultService false) (fun _ => 0)
        (.str "a")).map (fun d => (d.buffer.drop 4).take 4) =
      .ok [255, 255, 255, 245]) ∧
    [255, 255, 255, 245] ≠ int32Bytes false (-11) :=
  ⟨rfl, by decide⟩

/-- C8, amended: the envelope is the 4-byte partition hash then the 4-byte
type tag then the payload, but the two header fields are always big-endian
regardless of the configured byte order; only the payload honors the
configuration, as the string serializer's length prefix shows. -/
theorem envelopeLayout :
    (∀ (svc : SerializationServiceV1) (strat : JSValue → Int) (v : JSValue)
      (s : Serializer) (payload : List Nat),
      svc.findSerializerFor v = .ok (some s) →
      s.write svc.isBigEndian v = .ok payload →
      svc.toData strat v =
        .ok ⟨int32Bytes true (strat v) ++ (int32Bytes true s.id ++ payload)⟩) ∧
    (∀ (big : Bool) (strat : JSValue → Int) (t : String),
      SerializationServiceV1.toData (defaultService big) strat (.str t) =
        .ok ⟨int32Bytes true (strat (.str t)) ++
          (int32Bytes true (-11) ++
            (int32Bytes big ((utf8Bytes t).length : Int) ++ utf8Bytes t))⟩) := by
  constructor
  · intro svc strat v s payload hs hw
    exact toData_layout svc strat v s payload hs hw
  · intro big strat t
    exact toData_layout (defaultService big) strat (.str t) StringSerializer
      (int32Bytes big ((utf8Bytes t).length : Int) ++ utf8Bytes t) rfl rfl

/-- Witness for C8: the layout at a concrete little-endian encoding of a
one-character string. -/
theorem envelopeLayout_witness :
    SerializationServiceV1.toData (defaultService false) (fun _ => 0) (.str "a") =
      .ok ⟨int32Bytes true 0 ++
        (int32Bytes true StringSerializer.id ++
          (int32Bytes false ((utf8Bytes "a").length : Int) ++ utf8Bytes "a"))⟩ :=
  envelopeLayout.1 (defaultService false) (fun _ => 0) (.str "a") StringSerializer
    (int32Bytes false ((utf8Bytes "a").length : Int) ++ utf8Bytes "a") rfl rfl

/-- C9, counterexample: decoding an envelope whose tag (99) is bound to no
serializer does fail, but with the TypeError of dereferencing the undefined
registry entry (`serializer.read(...)`), not with an UnknownType error. -/
theorem unknownTag_counterexample :
    (SerializationServiceV1.toObject (defaultService true)
        ⟨int32Bytes true 0 ++ int32Bytes true 99⟩ =
      .error (.typeError "Cannot read property read of undefined")) ∧
    JsError.typeError "Cannot read property read of undefined" ≠
      JsError.unknownType 99 :=
  ⟨rfl, by decide⟩

/-- C9, amended: toObject resolves the serializer bound to the envelope's
type tag; if none is bound it raises the TypeError of dereferencing the
absent entry (not an UnknownType error), and otherwise it reads the payload
with the serializer's reader positioned at DATA_OFFSET = 8, immediately
after the two 4-byte header fields. -/
theorem toObject_dispatch (svc : SerializationServiceV1) (d : HeapData) :
    (svc.findSerializerById d.getType = none →
      svc.toObject d = .error (.typeError "Cannot read property read of undefined")) ∧
    (∀ s : Serializer, svc.findSerializerById d.getType = some s →
      svc.toObject d = s.read ⟨d.buffer, DATA_OFFSET, svc.isBigEndian⟩) := by
  constructor
  · intro h
    unfold SerializationServiceV1.toObject
    simp only [h]
  · intro s h
    unfold SerializationServiceV1.toObject
    simp only [h]

/-- Witness for C9: decoding a null envelope (tag 0, bound to the null
serializer) reads the payload after the 8 header bytes and yields null. -/
theorem toObject_dispatch_witness :
    SerializationServiceV1.toObject (defaultService true)
      ⟨int32Bytes true 0 ++ int32Bytes true 0⟩ = .ok .null :=
  (toObject_dispatch (defaultService true)
    ⟨int32Bytes true 0 ++ int32Bytes true 0⟩).2 NullSerializer rfl

/-- C10: decodeResponse reads exactly one boolean from the message body
(the byte at the read cursor, compared against 1) and returns it as the
response field; the optional converter argument is never used — any two
converter arguments produce the same result. -/
theorem decodeResponse_reads_boolean (m : ClientMessage)
    (f g : Option (HeapData → JSValue)) (h : m.readIndex < m.buffer.length) :
    (MultiMapIsLockedCodec.decodeResponse m f =
      .ok ⟨m.buffer.getD m.readIndex 0 == 1⟩) ∧
    MultiMapIsLockedCodec.decodeResponse m f =
      MultiMapIsLockedCodec.decodeResponse m g := by
  refine ⟨?_, rfl⟩
  simp only [MultiMapIsLockedCodec.decodeResponse, ClientMessage.readBoolean,
    List.getD_eq_getElem?_getD, List.getElem?_eq_getElem h]
  rfl

/-- Witness for C10 at a one-byte body holding the value 1. -/
theorem decodeResponse_reads_boolean_witness :
    (MultiMapIsLockedCodec.decodeResponse ⟨[1], 0, 0⟩ none =
      .ok ⟨([1] : List Nat).getD 0 0 == 1⟩) ∧
    MultiMapIsLockedCodec.decodeResponse ⟨[1], 0, 0⟩ none =
      MultiMapIsLockedCodec.decodeResponse ⟨[1], 0, 0⟩
        (some fun _ => JSValue.null) :=
  decodeResponse_reads_boolean ⟨[1], 0, 0⟩ none (some fun _ => JSValue.null)
    (by decide)
